import Mathlib

/-
  Shallow embedding of the two resolvers of sheltont/dnslib:
    - dnslib/geointerceptresolver.py  (class GeoInterceptResolver)
    - dnslib/geozoneresolver.py       (class GeoZoneResolver)

  External collaborators (the upstream DNS server, the redis cache, the
  geolite2 reader, and the dnslib wire/zone library that is not part of the
  two source files) are modelled as oracles supplied to each function; every
  externally observable call the code makes is recorded in a trace of Events.
  Machinery the source delegates to the dnslib library proper (DNSLabel
  rendering, DNSRecord.get_a, RR.fromZone, DNSLabel.matchGlob) is modelled
  from the specification and marked as such on each definition.
-/

namespace DnsGeo

/-- A DNS resource record as the two resolvers use it: fields rname, ttl,
rclass, rtype (class/type kept in their textual form, as produced by the
CLASS/QTYPE mappings) and rdata in its textual rendering (for MX records:
"preference exchange"). -/
structure RR where
  rname : String
  ttl : Nat
  rclass : String
  rtype : String
  rdata : String
deriving Repr, DecidableEq, Inhabited

/-- A parsed DNS message as the pipeline observes it: the header rcode and
the answer section. -/
structure DNSReply where
  rcode : Nat
  answers : List RR
deriving Repr, DecidableEq, Inhabited

/-- The incoming query: its name and its type (textual, via QTYPE). -/
structure DNSRequest where
  qname : String
  qtype : String
deriving Repr, DecidableEq, Inhabited

/-- The request handler metadata the resolvers read: the transport protocol
("udp" or "tcp") and the client address (ip, port). -/
structure Handler where
  protocol : String
  client_address : String × Nat
deriving Repr, DecidableEq, Inhabited

/-- One externally observable call of the pipeline: a cache read, a cache
write (with the store-expiry ttl passed to redis set), an upstream send
(with the tcp flag and the timeout argument passed at the call site, none
when the call site passes no timeout), or a geolocation lookup. -/
inductive Event where
  | cacheGet (key : String)
  | cacheSet (key : String) (rr : RR) (ttl : Nat)
  | upstreamSend (tcp : Bool) (timeout : Option Nat)
  | geoLookup (ip : String)
deriving Repr, DecidableEq

/-- The oracles for one request: cache content (redis get composed with
pickle.loads; the pickle round trip is the identity on a record), the parsed
upstream response to forwarding this request (by tcp flag), the parsed
upstream response to a fresh type-A question for a domain, and the geolite2
country lookup (none on any failure: invalid address, reader error, address
not found, missing country/iso_code fields). -/
structure World where
  cache : String → Option RR
  forward : Bool → DNSReply
  resolveA : String → DNSReply
  geo : String → Option String

/-- The per-resolver configuration: the skip list and the glob matcher.
Modelled from the spec: DNSLabel.matchGlob (dnslib library, not under src/)
is "glob-style matching against the fully qualified query name"; it is kept
abstract as a Boolean matcher of (queryName, pattern). -/
structure Config where
  skip : List String
  matchGlob : String → String → Bool

/-- Modelled from the spec: a fresh reply for a request (DNSRecord.reply of
dnslib/dns.py, not under src/): NOERROR status and an empty answer section. -/
def DNSRequest.reply (_r : DNSRequest) : DNSReply := ⟨0, []⟩

/-- Appending a record to the answer section (DNSRecord.add_answer). -/
def DNSReply.add_answer (r : DNSReply) (rr : RR) : DNSReply :=
  { r with answers := r.answers ++ [rr] }

/-- Python's str.split on a single-character separator (the only kind the two
resolvers use: ' ', '.', '-'): empty input gives one empty token, adjacent
separators give empty tokens. -/
def splitOnChar (sep : Char) : List Char → List (List Char)
  | [] => [[]]
  | c :: cs =>
    let rest := splitOnChar sep cs
    if c = sep then [] :: rest
    else (c :: rest.headD []) :: rest.tail

/-- str.split(sep) at the String level. -/
def pySplit (s : String) (sep : Char) : List String :=
  (splitOnChar sep s.data).map String.mk

/-- str.lower() character by character. -/
def pyLower (s : String) : String := String.mk (s.data.map Char.toLower)

/-- str.upper() character by character. -/
def pyUpper (s : String) : String := String.mk (s.data.map Char.toUpper)

/-- str.strip(): surrounding whitespace removed. -/
def pyStrip (s : String) : String :=
  String.mk
    (((s.data.dropWhile Char.isWhitespace).reverse.dropWhile
        Char.isWhitespace).reverse)

namespace GeoInterceptResolver

def DEFAULT_LOCATION : String := "CN"

def DEFAULT_OVERSEA_OUTBOUND_GATEWAY : String := "172.21.175.245"

def CN_OVERSEA_OUTBOUND_GATEWAY : String := "192.168.200.133"

def DEFAULT_TIMEOUT : Nat := 5

/-- Modelled from the spec: the textual rendering of a DNS name used when the
name is interpolated into a cache key or a zone line (DNSLabel of dnslib/dns.py,
not under src/). The spec requires the name "embedded verbatim, normalized for
case"; normalization is to lower case. -/
def label_str (s : String) : String := pyLower s

/-- DNS names match case-insensitively (spec data model: "name (domain,
case-insensitive matching)"). -/
def dns_name_eq (a b : String) : Bool := pyLower a = pyLower b

/-- Modelled from the spec: "take the first answer record" (DNSRecord.get_a of
dnslib/dns.py, not under src/); the default record stands for the empty-answers
case, which the theorems exclude by hypothesis. -/
def get_a (r : DNSReply) : RR := r.answers.headD default

/-- _is_noerror: the reply's rcode equals RCODE.NOERROR (0). -/
def is_noerror (reply : DNSReply) : Bool := reply.rcode = 0

/-- _parse_rdata: split the textual rdata on a single space; two tokens give
(preference, host), anything else gives preference "" and the first token as
host. -/
def parse_rdata (rdata : String) : String × String :=
  let tokens := pySplit rdata ' '
  if tokens.length = 2 then (tokens.headD "", (tokens.drop 1).headD "")
  else ("", tokens.headD "")

/-- Rejoining the tokens beyond Python's maxsplit with the '.' separator. -/
def join_dot : List (List Char) → List Char
  | [] => []
  | [x] => x
  | x :: xs => x ++ '.' :: join_dot xs

/-- Python's s.split(".", 3): split on "." at most three times, keeping the
remainder joined in the final token. -/
def split_dot_limit3 (s : String) : List String :=
  let parts := splitOnChar '.' s.data
  if parts.length ≤ 4 then parts.map String.mk
  else (parts.take 3).map String.mk ++ [String.mk (join_dot (parts.drop 3))]

/-- Python's int(str) on the token grammar the pipeline can meet: surrounding
whitespace stripped, one optional sign, then a nonempty run of digits; none
models the ValueError. -/
def pyInt (s : String) : Option Int :=
  let t := pyStrip s
  let signed : Bool × List Char :=
    match t.data with
    | '-' :: rest => (true, rest)
    | '+' :: rest => (false, rest)
    | l => (false, l)
  let core := signed.2
  if core.length > 0 ∧ core.all (fun c => c.isDigit) then
    let n : Nat := core.foldl (fun acc c => acc * 10 + (c.toNat - 48)) 0
    some (if signed.1 then -(n : Int) else (n : Int))
  else none

/-- _is_ipaddress: every token of s.split(".", 3) parses as an int in [0,255];
a token that does not parse at all (ValueError) makes the answer false. -/
def is_ipaddress (s : String) : Bool :=
  (split_dot_limit3 s).all (fun o =>
    match pyInt o with
    | some n => decide (0 ≤ n ∧ n ≤ 255)
    | none => false)

/-- The cache key of _answer_from_cache/_answer_to_cache:
'mx:%s:%s' % (location, qname). -/
def mx_key (location qname : String) : String :=
  "mx:" ++ location ++ ":" ++ label_str qname

/-- _answer_from_cache: read the key from redis; a stored value unpickles to
the stored record. -/
def answer_from_cache (w : World) (qname : String) (location : String) :
    Option RR × List Event :=
  let key := mx_key location qname
  (w.cache key, [.cacheGet key])

/-- _answer_to_cache: pickle the record and set it under the key with
store-expiry ttl equal to the record's own ttl field. -/
def answer_to_cache (qname : String) (rr : RR) (location : String) :
    List Event :=
  [.cacheSet (mx_key location qname) rr rr.ttl]

/-- _location_from_client: geolite2 lookup of the ip, with the reserved
default location returned on any failure. -/
def location_from_client (w : World) (ip_address : String) :
    String × List Event :=
  (match w.geo ip_address with
   | some code => code
   | none => DEFAULT_LOCATION,
   [.geoLookup ip_address])

/-- The gateway chosen from a location: gw starts as the default oversea
gateway and becomes the CN gateway when the location is 'CN'. -/
def gateway_for (loc : String) : String :=
  if loc = "CN" then CN_OVERSEA_OUTBOUND_GATEWAY
  else DEFAULT_OVERSEA_OUTBOUND_GATEWAY

/-- _resolve_other: forward the request to the upstream server over the
client's transport with the fixed timeout and parse the response (the
request's fresh reply always has an empty answer section, so the forward
always happens). -/
def resolve_other (w : World) (request : DNSRequest) (handler : Handler) :
    DNSReply × List Event :=
  let reply := request.reply
  if reply.answers.isEmpty then
    if handler.protocol = "udp" then
      (w.forward false, [.upstreamSend false (some DEFAULT_TIMEOUT)])
    else
      (w.forward true, [.upstreamSend true (some DEFAULT_TIMEOUT)])
  else (reply, [])

/-- _resolve_record: build a fresh type-A question for the domain and send it
to the upstream server over UDP; the call site passes no timeout argument. -/
def resolve_record (w : World) (domain : String) : DNSReply × List Event :=
  (w.resolveA domain, [.upstreamSend false none])

/-- Modelled from the spec: the record built by RR.fromZone from the zone line
"qname\tttl\tCLASS[rclass]\tQTYPE[rtype]\tpref\tgw" (§4.1 step 7: a new Answer
with the original query name, the original record's ttl/class/type, the
original preference and rdata replaced by the selected gateway). -/
def rr_from_zone (qname : String) (ttl : Nat) (rclass rtype pref gw : String) :
    RR :=
  ⟨label_str qname, ttl, rclass, rtype, pref ++ " " ++ gw⟩

/-- The tail of _resolve_mx after an effective host is known: geolocate it,
select the gateway, build the rewritten record, answer with it alone and
cache it. -/
def finish_mx (w : World) (request : DNSRequest) (a : RR)
    (pref host : String) (evs : List Event) : DNSReply × List Event :=
  let locE := location_from_client w host
  let gw := gateway_for locE.1
  let rr := rr_from_zone request.qname a.ttl a.rclass a.rtype pref gw
  let reply := (DNSRequest.reply request).add_answer rr
  (reply, evs ++ locE.2 ++ answer_to_cache request.qname (get_a reply) "")

/-- _resolve_mx: try the cache; on a miss forward upstream; return a
non-NOERROR response verbatim; otherwise parse the first answer's rdata into
(preference, host), resolve a non-IP host through a secondary type-A query
(failing open to the forwarded reply when that is not NOERROR, and keeping
the original preference), then geolocate, rewrite and cache. -/
def resolve_mx (w : World) (request : DNSRequest) (handler : Handler) :
    DNSReply × List Event :=
  let qname := request.qname
  let cached := answer_from_cache w qname ""
  match cached.1 with
  | some rr => ((DNSRequest.reply request).add_answer rr, cached.2)
  | none =>
    let fwdE := resolve_other w request handler
    let fwd := fwdE.1
    let ev12 := cached.2 ++ fwdE.2
    if is_noerror fwd = false then (fwd, ev12)
    else
      let a := get_a fwd
      let pref := (parse_rdata a.rdata).1
      let host0 := (parse_rdata a.rdata).2
      if is_ipaddress host0 then
        finish_mx w request a pref host0 ev12
      else
        let secE := resolve_record w host0
        let ev123 := ev12 ++ secE.2
        if is_noerror secE.1 = false then (fwd, ev123)
        else
          finish_mx w request a pref (parse_rdata (get_a secE.1).rdata).2 ev123

/-- resolve: MX queries not matching any skip glob enter the interception
pipeline; every other query is proxied. -/
def resolve (cfg : Config) (w : World) (request : DNSRequest)
    (handler : Handler) : DNSReply × List Event :=
  let qtype := request.qtype
  let qname := request.qname
  if qtype = "MX" then
    if cfg.skip.any (fun s => cfg.matchGlob qname s) then
      resolve_other w request handler
    else
      resolve_mx w request handler
  else
    resolve_other w request handler

/-- Whether an event is a cache write. -/
def is_cache_set : Event → Bool
  | .cacheSet _ _ _ => true
  | _ => false

/-- Whether an event is an upstream DNS send. -/
def is_upstream_send : Event → Bool
  | .upstreamSend _ _ => true
  | _ => false

/-- The effective mail-host address the pipeline geolocates: the exchange host
itself when it is already a literal IPv4 address, otherwise the first answer
of the secondary type-A resolution. -/
def effective_host (w : World) (host0 : String) : String :=
  if is_ipaddress host0 then host0
  else (parse_rdata (get_a (w.resolveA host0)).rdata).2

/-- The upstream events of the optional secondary resolution step. -/
def secondary_events (host0 : String) : List Event :=
  if is_ipaddress host0 then [] else [.upstreamSend false none]

end GeoInterceptResolver

namespace GeoZoneResolver

def DEFAULT_LOCATION : String := "DEFAULT"

/-- The oracles of the geo zone resolver: the geolite2 country lookup (none on
any failure) and, modelled from the spec, the resolution behavior of the
ZoneResolver built from a given zone file (dnslib/zoneresolver.py, not under
src/; zone-file parsing and record matching are external collaborators, so a
zone table is identified here by the file it was loaded from). -/
structure ZoneWorld where
  geo : String → Option String
  zoneResolve : String → DNSRequest → Handler → DNSReply

/-- _location_from_suffix: split the filename on '-'; exactly two tokens give
the last token uppercased, anything else gives the reserved default location. -/
def location_from_suffix (filename : String) : String :=
  let tokens := pySplit filename '-'
  if tokens.length = 2 then pyUpper (tokens.getLastD "")
  else DEFAULT_LOCATION

/-- One iteration of the zone-file loop of __init__: derive the file's
location from its suffix and register its resolver in the zones dict,
overwriting any earlier file with the same location. -/
def zones_step (zs : String → Option String) (file : String) :
    String → Option String :=
  fun l => if l = location_from_suffix file then some file else zs l

/-- __init__: iterate over the zone files of the directory in order, building
the zones dict; the table maps a location to the file whose resolver is
registered under it. -/
def mk_zones (zone_files : List String) : String → Option String :=
  zone_files.foldl zones_step (fun _ => none)

/-- The location assignment in the words of the spec, for comparison with
location_from_suffix: "filename suffix after the last `-` (uppercased)
denotes the LocationCode; absence of a recognizable suffix assigns the
reserved default location". -/
def spec_suffix_location (filename : String) : String :=
  let tokens := pySplit filename '-'
  if tokens.length ≥ 2 then pyUpper (tokens.getLastD "")
  else DEFAULT_LOCATION

/-- _location_from_client: unpack (ip, port), look the ip up in geolite2 and
read country.iso_code; any failure yields the reserved default location. -/
def location_from_client (zw : ZoneWorld) (ip_address : String × Nat) :
    String :=
  match zw.geo ip_address.1 with
  | some code => code
  | none => DEFAULT_LOCATION

/-- _zoneresolver_from_location: the table registered under the location when
the location is a key of the dict, otherwise the table registered under the
reserved default location; none models the uncaught KeyError raised when the
default location is not a key either. -/
def zoneresolver_from_location (zones : String → Option String)
    (location : String) : Option String :=
  match zones location with
  | some f => some f
  | none => zones DEFAULT_LOCATION

/-- resolve: derive the client's location from its source address and delegate
the request to the selected zone table's resolver; none models the uncaught
KeyError when no table can be selected. -/
def resolve (zw : ZoneWorld) (zones : String → Option String)
    (request : DNSRequest) (handler : Handler) : Option DNSReply :=
  let location := location_from_client zw handler.client_address
  match zoneresolver_from_location zones location with
  | some f => some (zw.zoneResolve f request handler)
  | none => none

end GeoZoneResolver

namespace GeoInterceptResolver

/-- The parsed reply of the upstream forward of one MX pipeline run. -/
def fwd_reply (w : World) (req : DNSRequest) (h : Handler) : DNSReply :=
  (resolve_other w req h).1

/-- The preference token parsed from the first answer of the upstream MX
response (the one the rewrite keeps, whatever the secondary step returns). -/
def orig_pref (w : World) (req : DNSRequest) (h : Handler) : String :=
  (parse_rdata (get_a (fwd_reply w req h)).rdata).1

/-- The exchange-host token parsed from the first answer of the upstream MX
response. -/
def orig_host (w : World) (req : DNSRequest) (h : Handler) : String :=
  (parse_rdata (get_a (fwd_reply w req h)).rdata).2

/-- The LocationCode the pipeline derives for the effective mail host. -/
def mx_location (w : World) (req : DNSRequest) (h : Handler) : String :=
  (location_from_client w (effective_host w (orig_host w req h))).1

/-- The record the rewrite step builds for one MX pipeline run. -/
def rewritten_rr (w : World) (req : DNSRequest) (h : Handler) : RR :=
  rr_from_zone req.qname (get_a (fwd_reply w req h)).ttl
    (get_a (fwd_reply w req h)).rclass (get_a (fwd_reply w req h)).rtype
    (orig_pref w req h) (gateway_for (mx_location w req h))

/-- Example MX answer of the upstream forward, as in the spec scenario. -/
def exMxAnswer : RR := ⟨"mail.example.com.", 300, "IN", "MX", "10 mx.example.com."⟩

/-- Example answer of the secondary type-A resolution. -/
def exAAnswer : RR := ⟨"mx.example.com.", 120, "IN", "A", "203.0.113.9"⟩

/-- Concrete oracles: empty cache, NOERROR MX forward, NOERROR secondary A
resolution, geolocation failing on every address. -/
def exW : World :=
  { cache := fun _ => none
  , forward := fun _ => ⟨0, [exMxAnswer]⟩
  , resolveA := fun _ => ⟨0, [exAAnswer]⟩
  , geo := fun _ => none }

/-- As exW but with the geolocation answering US everywhere. -/
def exWus : World := { exW with geo := fun _ => some "US" }

/-- As exW but with the geolocation answering CN everywhere. -/
def exWcn : World := { exW with geo := fun _ => some "CN" }

/-- As exW but with the upstream forward failing with NXDOMAIN. -/
def exWfwdErr : World := { exW with forward := fun _ => ⟨3, []⟩ }

/-- As exW but with the secondary type-A resolution failing with SERVFAIL. -/
def exWsecErr : World := { exW with resolveA := fun _ => ⟨2, []⟩ }

/-- Concrete MX query. -/
def exReq : DNSRequest := ⟨"mail.example.com.", "MX"⟩

/-- Concrete non-MX query. -/
def exReqA : DNSRequest := ⟨"www.example.com.", "A"⟩

/-- Concrete UDP client handler. -/
def exH : Handler := ⟨"udp", ("198.51.100.7", 40000)⟩

/-- Concrete TCP client handler. -/
def exHtcp : Handler := ⟨"tcp", ("198.51.100.7", 40001)⟩

/-- Configuration with an empty skip list. -/
def exCfg : Config := ⟨[], fun _ _ => false⟩

/-- Configuration whose single skip glob matches every name. -/
def exCfgSkip : Config := ⟨["*.example.com."], fun _ _ => true⟩

/-- A cache holding exactly the record the exWus run rewrites, under its key. -/
def exCacheHit : String → Option RR :=
  fun k => if k = mx_key "" exReq.qname
    then some (rewritten_rr exWus exReq exH) else none

end GeoInterceptResolver

namespace GeoZoneResolver

/-- Concrete zone oracles: a geolocation that knows two addresses and a zone
resolution answering with a record naming the zone file that served it. -/
def exZW : ZoneWorld :=
  { geo := fun ip =>
      if ip = "203.0.113.9" then some "CN"
      else if ip = "198.51.100.99" then some "US" else none
  , zoneResolve := fun f _ _ => ⟨0, [⟨f, 60, "IN", "A", "192.0.2.1"⟩]⟩ }

/-- A zone directory with a CN-suffixed file and a default file. -/
def exFiles : List String := ["oversea.ceair.com-cn", "default.zone"]

/-- A zone directory with no file mapping to the default location. -/
def exFilesNoDefault : List String := ["a-cn", "b-us"]

/-- A client whose address geolocates to CN. -/
def exHcn : Handler := ⟨"udp", ("203.0.113.9", 1000)⟩

/-- A client whose address geolocates to US. -/
def exHus : Handler := ⟨"udp", ("198.51.100.99", 1000)⟩

/-- A client whose address does not geolocate. -/
def exHx : Handler := ⟨"udp", ("198.51.100.7", 1000)⟩

/-- A concrete query for the zone resolver. -/
def exZReq : DNSRequest := ⟨"oversea.ceair.com.", "A"⟩

end GeoZoneResolver

/-- Packing a valid code point round-trips through Char.ofNat. -/
theorem toNat_ofNat_valid (m : Nat) (h : m.isValidChar) :
    (Char.ofNat m).toNat = m := by
  simp [Char.ofNat, h, Char.ofNatAux, Char.toNat, UInt32.toNat]

/-- Lowercasing a character is idempotent. -/
theorem char_toLower_idem (c : Char) : c.toLower.toLower = c.toLower := by
  unfold Char.toLower
  by_cases h : c.toNat ≥ 65 ∧ c.toNat ≤ 90
  · rw [if_pos h]
    have hv : (c.toNat + 32).isValidChar := Or.inl (by omega)
    have h32 : (Char.ofNat (c.toNat + 32)).toNat = c.toNat + 32 :=
      toNat_ofNat_valid _ hv
    rw [if_neg (by omega)]
  · rw [if_neg h, if_neg h]

/-- Lowercasing a string is idempotent. -/
theorem pyLower_idem (s : String) : pyLower (pyLower s) = pyLower s := by
  apply congrArg String.mk
  show List.map Char.toLower (List.map Char.toLower s.data) =
    List.map Char.toLower s.data
  rw [List.map_map]
  exact List.map_congr_left (fun c _ => char_toLower_idem c)

/-- Appending to a fixed prefix string is injective. -/
theorem string_append_right_inj (p x y : String) : p ++ x = p ++ y ↔ x = y := by
  constructor
  · intro hxy
    have hd : p.data ++ x.data = p.data ++ y.data := by
      simpa [String.data_append] using congrArg String.data hxy
    cases x
    cases y
    exact congrArg String.mk (List.append_cancel_left hd)
  · intro hxy
    rw [hxy]

namespace GeoInterceptResolver

/-- The case-normalized rendering of a name matches the name itself under
case-insensitive DNS name comparison. -/
theorem dns_name_eq_label (s : String) : dns_name_eq (label_str s) s = true := by
  simp [dns_name_eq, label_str, pyLower_idem]

/-- _resolve_other forwards over the client's transport with the fixed timeout
and returns the parsed upstream response. -/
theorem resolve_other_eq (w : World) (req : DNSRequest) (h : Handler) :
    resolve_other w req h =
      (w.forward (if h.protocol = "udp" then false else true),
       [.upstreamSend (if h.protocol = "udp" then false else true)
          (some DEFAULT_TIMEOUT)]) := by
  unfold resolve_other
  by_cases hp : h.protocol = "udp" <;> simp [hp, DNSRequest.reply]

/-- A cache hit short-circuits the pipeline: the stored record is the sole
answer of a fresh reply and the only event is the cache read. -/
theorem resolve_mx_hit (w : World) (req : DNSRequest) (h : Handler) (rr : RR)
    (hc : w.cache (mx_key "" req.qname) = some rr) :
    resolve_mx w req h = (⟨0, [rr]⟩, [.cacheGet (mx_key "" req.qname)]) := by
  unfold resolve_mx
  simp [answer_from_cache, hc, DNSRequest.reply, DNSReply.add_answer]

/-- A non-NOERROR upstream forward is returned as is after only the cache read
and the forward itself. -/
theorem resolve_mx_fwd_error (w : World) (req : DNSRequest) (h : Handler)
    (hc : w.cache (mx_key "" req.qname) = none)
    (hne : is_noerror (resolve_other w req h).1 = false) :
    resolve_mx w req h =
      ((resolve_other w req h).1,
       Event.cacheGet (mx_key "" req.qname) :: (resolve_other w req h).2) := by
  unfold resolve_mx
  simp [answer_from_cache, hc, hne]

/-- A failing secondary resolution makes the pipeline return the original
forwarded reply, with the secondary send as the only extra event. -/
theorem resolve_mx_secondary_error (w : World) (req : DNSRequest) (h : Handler)
    (hc : w.cache (mx_key "" req.qname) = none)
    (hf : is_noerror (resolve_other w req h).1 = true)
    (hip : is_ipaddress (parse_rdata (get_a (resolve_other w req h).1).rdata).2 = false)
    (hs : is_noerror (w.resolveA (parse_rdata (get_a (resolve_other w req h).1).rdata).2) = false) :
    resolve_mx w req h =
      ((resolve_other w req h).1,
       (Event.cacheGet (mx_key "" req.qname) :: (resolve_other w req h).2) ++
         [.upstreamSend false none]) := by
  unfold resolve_mx
  simp [answer_from_cache, hc, hf, hip, hs, resolve_record]

/-- The explicit shape of the geolocate-rewrite-cache tail. -/
theorem finish_mx_eq (w : World) (req : DNSRequest) (a : RR) (pref host : String)
    (evs : List Event) :
    finish_mx w req a pref host evs =
      (⟨0, [rr_from_zone req.qname a.ttl a.rclass a.rtype pref
              (gateway_for (location_from_client w host).1)]⟩,
       evs ++ [.geoLookup host,
               .cacheSet (mx_key "" req.qname)
                 (rr_from_zone req.qname a.ttl a.rclass a.rtype pref
                   (gateway_for (location_from_client w host).1))
                 a.ttl]) := by
  simp [finish_mx, DNSRequest.reply, DNSReply.add_answer, get_a,
    answer_to_cache, location_from_client, rr_from_zone]

/-- On a cache miss with a NOERROR forward and a workable exchange host, the
pipeline runs the rewrite tail on the effective host with the original
preference. -/
theorem resolve_mx_rewrite (w : World) (req : DNSRequest) (h : Handler)
    (hc : w.cache (mx_key "" req.qname) = none)
    (hf : is_noerror (resolve_other w req h).1 = true)
    (hsec : is_ipaddress (parse_rdata (get_a (resolve_other w req h).1).rdata).2 = false →
        is_noerror (w.resolveA (parse_rdata (get_a (resolve_other w req h).1).rdata).2) = true) :
    resolve_mx w req h =
      finish_mx w req (get_a (resolve_other w req h).1)
        (parse_rdata (get_a (resolve_other w req h).1).rdata).1
        (effective_host w (parse_rdata (get_a (resolve_other w req h).1).rdata).2)
        ((Event.cacheGet (mx_key "" req.qname) :: (resolve_other w req h).2) ++
          secondary_events (parse_rdata (get_a (resolve_other w req h).1).rdata).2) := by
  unfold resolve_mx
  simp only [answer_from_cache, hc, hf]
  by_cases hip : is_ipaddress (parse_rdata (get_a (resolve_other w req h).1).rdata).2 = true
  · simp [hip, effective_host, secondary_events]
  · simp only [Bool.not_eq_true] at hip
    have hsec2 := hsec hip
    simp [hip, hsec2, effective_host, secondary_events, resolve_record]

/-- An MX query matching no skip glob enters the interception pipeline. -/
theorem resolve_dispatch_mx (cfg : Config) (w : World) (req : DNSRequest)
    (h : Handler) (hq : req.qtype = "MX")
    (hskip : ∀ s ∈ cfg.skip, cfg.matchGlob req.qname s = false) :
    resolve cfg w req h = resolve_mx w req h := by
  unfold resolve
  have hany : cfg.skip.any (fun s => cfg.matchGlob req.qname s) = false :=
    List.any_eq_false.mpr (by intro s hs; simp [hskip s hs])
  simp [hq, hany]

/-- A non-MX or skip-listed query is proxied. -/
theorem resolve_dispatch_other (cfg : Config) (w : World) (req : DNSRequest)
    (h : Handler)
    (hq : req.qtype ≠ "MX" ∨ ∃ s ∈ cfg.skip, cfg.matchGlob req.qname s = true) :
    resolve cfg w req h = resolve_other w req h := by
  unfold resolve
  rcases hq with hq | ⟨s, hs, hm⟩
  · simp [hq]
  · by_cases hmx : req.qtype = "MX"
    · have hany : cfg.skip.any (fun s => cfg.matchGlob req.qname s) = true :=
        List.any_eq_true.mpr ⟨s, hs, hm⟩
      simp [hmx, hany]
    · simp [hmx]

end GeoInterceptResolver

namespace GeoZoneResolver

/-- A location registered by no zone file is absent from any zones table the
startup loop builds on top of any accumulator that lacks it. -/
theorem mk_zones_aux (files : List String) (acc : String → Option String)
    (l : String) (hl : ∀ f ∈ files, location_from_suffix f ≠ l) :
    files.foldl zones_step acc l = acc l := by
  induction files generalizing acc with
  | nil => rfl
  | cons f fs ih =>
    simp only [List.foldl_cons]
    rw [ih _ (fun g hg => hl g (List.mem_cons_of_mem f hg))]
    have hne : l ≠ location_from_suffix f :=
      fun hEq => hl f (List.mem_cons_self f fs) hEq.symm
    simp [zones_step, hne]

/-- A location registered by no zone file is absent from the zones table. -/
theorem mk_zones_not_mem (files : List String) (l : String)
    (hl : ∀ f ∈ files, location_from_suffix f ≠ l) :
    mk_zones files l = none := by
  unfold mk_zones
  rw [mk_zones_aux files _ l hl]

end GeoZoneResolver

namespace GeoInterceptResolver

/-- C1 counterexample: with oracles whose geolocation lookup fails on every
address (and a NOERROR MX forward chained through a NOERROR secondary A
resolution), the rewritten rdata carries the domestic CN gateway, not the
default/oversea gateway the claim announces for a failed lookup. -/
theorem C1_counterexample :
    exW.geo (effective_host exW (orig_host exW exReq exH)) = none ∧
    (resolve_mx exW exReq exH).1.answers.map RR.rdata =
      ["10 " ++ CN_OVERSEA_OUTBOUND_GATEWAY] ∧
    CN_OVERSEA_OUTBOUND_GATEWAY ≠ DEFAULT_OVERSEA_OUTBOUND_GATEWAY := by
  decide

/-- C1 (amended): on a cache miss with a NOERROR forward and a workable
exchange host, the rewritten rdata carries the domestic gateway exactly when
the derived LocationCode — the geolocated code, or the reserved default
location on lookup failure — equals CN; any other derived code yields the
default/oversea gateway. Because DEFAULT_LOCATION is CN, a failed lookup
derives CN and therefore yields the domestic gateway. -/
theorem C1_gateway_selection (w : World) (req : DNSRequest) (h : Handler)
    (hc : w.cache (mx_key "" req.qname) = none)
    (hf : is_noerror (fwd_reply w req h) = true)
    (hsec : is_ipaddress (orig_host w req h) = false →
      is_noerror (w.resolveA (orig_host w req h)) = true) :
    (resolve_mx w req h).1.answers.map RR.rdata =
      [orig_pref w req h ++ " " ++ gateway_for (mx_location w req h)] ∧
    (gateway_for (mx_location w req h) = CN_OVERSEA_OUTBOUND_GATEWAY ↔
      mx_location w req h = "CN") ∧
    (w.geo (effective_host w (orig_host w req h)) = none →
      mx_location w req h = "CN") := by
  refine ⟨?_, ⟨?_, ?_⟩, ?_⟩
  · rw [resolve_mx_rewrite w req h hc hf hsec, finish_mx_eq]
    simp [rr_from_zone, orig_pref, mx_location, orig_host, fwd_reply]
  · intro hg
    by_cases hl : mx_location w req h = "CN"
    · exact hl
    · rw [gateway_for, if_neg hl] at hg
      exact absurd hg (by decide)
  · intro hl
    simp [gateway_for, hl]
  · intro hg
    have hg2 : w.geo (effective_host w
        (parse_rdata (get_a (resolve_other w req h).1).rdata).2) = none := hg
    simp [mx_location, location_from_client, orig_host, fwd_reply, hg2,
      DEFAULT_LOCATION]

/-- C1 witness: the amended claim evaluated with a geolocation answering US,
discharging the cache-miss, NOERROR-forward and secondary hypotheses. -/
theorem C1_gateway_selection_witness :
    (resolve_mx exWus exReq exH).1.answers.map RR.rdata =
      [orig_pref exWus exReq exH ++ " " ++
        gateway_for (mx_location exWus exReq exH)] ∧
    (gateway_for (mx_location exWus exReq exH) = CN_OVERSEA_OUTBOUND_GATEWAY ↔
      mx_location exWus exReq exH = "CN") ∧
    (exWus.geo (effective_host exWus (orig_host exWus exReq exH)) = none →
      mx_location exWus exReq exH = "CN") :=
  C1_gateway_selection exWus exReq exH rfl (by decide) (by decide)

/-- C2: on a cache miss, a non-NOERROR upstream forward is returned verbatim
and a non-NOERROR secondary type-A resolution returns the original forwarded
reply unmodified; neither path writes to the cache. -/
theorem C2_error_fail_open (w : World) (req : DNSRequest) (h : Handler)
    (hc : w.cache (mx_key "" req.qname) = none) :
    (is_noerror (fwd_reply w req h) = false →
      (resolve_mx w req h).1 = fwd_reply w req h ∧
      ∀ e ∈ (resolve_mx w req h).2, is_cache_set e = false) ∧
    (is_noerror (fwd_reply w req h) = true →
      is_ipaddress (orig_host w req h) = false →
      is_noerror (w.resolveA (orig_host w req h)) = false →
      (resolve_mx w req h).1 = fwd_reply w req h ∧
      ∀ e ∈ (resolve_mx w req h).2, is_cache_set e = false) := by
  constructor
  · intro hne
    rw [resolve_mx_fwd_error w req h hc hne]
    refine ⟨rfl, ?_⟩
    rw [resolve_other_eq]
    simp [is_cache_set, List.forall_mem_cons]
  · intro hf hip hs
    rw [resolve_mx_secondary_error w req h hc hf hip hs]
    refine ⟨rfl, ?_⟩
    rw [resolve_other_eq]
    simp [is_cache_set, List.forall_mem_cons]

/-- C2 witness: the claim evaluated at an NXDOMAIN forward and at a SERVFAIL
secondary resolution, discharging both branches' hypotheses. -/
theorem C2_error_fail_open_witness :
    ((resolve_mx exWfwdErr exReq exH).1 = fwd_reply exWfwdErr exReq exH ∧
      ∀ e ∈ (resolve_mx exWfwdErr exReq exH).2, is_cache_set e = false) ∧
    ((resolve_mx exWsecErr exReq exH).1 = fwd_reply exWsecErr exReq exH ∧
      ∀ e ∈ (resolve_mx exWsecErr exReq exH).2, is_cache_set e = false) :=
  ⟨(C2_error_fail_open exWfwdErr exReq exH rfl).1 (by decide),
   (C2_error_fail_open exWsecErr exReq exH rfl).2 (by decide) (by decide)
     (by decide)⟩

/-- C3: an MX query matching no skip glob enters the interception pipeline;
every other query — non-MX, or MX matching some skip glob — is answered with
exactly the parsed upstream response forwarded over the client's own
transport, with the forward as the only recorded event (so no cache and no
geolocation activity). -/
theorem C3_router_dispatch (cfg : Config) (w : World) (req : DNSRequest)
    (h : Handler) :
    (req.qtype = "MX" → (∀ s ∈ cfg.skip, cfg.matchGlob req.qname s = false) →
      resolve cfg w req h = resolve_mx w req h) ∧
    ((req.qtype ≠ "MX" ∨ ∃ s ∈ cfg.skip, cfg.matchGlob req.qname s = true) →
      resolve cfg w req h =
        (w.forward (if h.protocol = "udp" then false else true),
         [.upstreamSend (if h.protocol = "udp" then false else true)
            (some DEFAULT_TIMEOUT)])) := by
  constructor
  · intro hq hskip
    exact resolve_dispatch_mx cfg w req h hq hskip
  · intro hq
    rw [resolve_dispatch_other cfg w req h hq, resolve_other_eq]

/-- C3 witness: dispatch evaluated for an MX query with an empty skip list,
a skip-listed MX query over TCP, and a non-MX query over UDP. -/
theorem C3_router_dispatch_witness :
    resolve exCfg exW exReq exH = resolve_mx exW exReq exH ∧
    resolve exCfgSkip exW exReq exHtcp =
      (exW.forward (if exHtcp.protocol = "udp" then false else true),
       [.upstreamSend (if exHtcp.protocol = "udp" then false else true)
          (some DEFAULT_TIMEOUT)]) ∧
    resolve exCfg exW exReqA exH =
      (exW.forward (if exH.protocol = "udp" then false else true),
       [.upstreamSend (if exH.protocol = "udp" then false else true)
          (some DEFAULT_TIMEOUT)]) :=
  ⟨(C3_router_dispatch exCfg exW exReq exH).1 rfl (by decide),
   (C3_router_dispatch exCfgSkip exW exReq exHtcp).2
     (Or.inr ⟨"*.example.com.", by decide, by decide⟩),
   (C3_router_dispatch exCfg exW exReqA exH).2 (Or.inl (by decide))⟩

/-- C4: when the pipeline rewrites, the reply holds exactly one record whose
name is the (case-normalized) original query name, whose ttl, class and type
are those of the first answer of the upstream MX response, whose preference
is the one parsed from that original rdata — also when a secondary A
resolution was chained, whose own preference token is discarded — and whose
rdata exchange is the selected gateway. -/
theorem C4_rewrite_fields (w : World) (req : DNSRequest) (h : Handler)
    (_hans : (fwd_reply w req h).answers ≠ [])
    (hc : w.cache (mx_key "" req.qname) = none)
    (hf : is_noerror (fwd_reply w req h) = true)
    (hsec : is_ipaddress (orig_host w req h) = false →
      is_noerror (w.resolveA (orig_host w req h)) = true) :
    (resolve_mx w req h).1.answers = [rewritten_rr w req h] ∧
    rewritten_rr w req h =
      ⟨label_str req.qname, (get_a (fwd_reply w req h)).ttl,
       (get_a (fwd_reply w req h)).rclass, (get_a (fwd_reply w req h)).rtype,
       orig_pref w req h ++ " " ++ gateway_for (mx_location w req h)⟩ ∧
    dns_name_eq (rewritten_rr w req h).rname req.qname = true := by
  refine ⟨?_, rfl, ?_⟩
  · rw [resolve_mx_rewrite w req h hc hf hsec, finish_mx_eq]
    rfl
  · exact dns_name_eq_label req.qname

/-- C4 witness: the rewrite evaluated with a geolocation answering CN and a
chained secondary resolution, discharging every hypothesis. -/
theorem C4_rewrite_fields_witness :
    (resolve_mx exWcn exReq exH).1.answers = [rewritten_rr exWcn exReq exH] ∧
    rewritten_rr exWcn exReq exH =
      ⟨label_str exReq.qname, (get_a (fwd_reply exWcn exReq exH)).ttl,
       (get_a (fwd_reply exWcn exReq exH)).rclass,
       (get_a (fwd_reply exWcn exReq exH)).rtype,
       orig_pref exWcn exReq exH ++ " " ++
         gateway_for (mx_location exWcn exReq exH)⟩ ∧
    dns_name_eq (rewritten_rr exWcn exReq exH).rname exReq.qname = true :=
  C4_rewrite_fields exWcn exReq exH (by decide) rfl (by decide) (by decide)

/-- C5: the rewrite run stores the rewritten record under the cache key with
store-expiry ttl equal to the record's own ttl field, and any later run whose
cache holds that record under the same key returns it as the sole answer of a
fresh reply, with the cache read as the only event — no upstream send and no
geolocation lookup on the hit path. -/
theorem C5_cache_round_trip (w : World) (req : DNSRequest) (h : Handler)
    (hc : w.cache (mx_key "" req.qname) = none)
    (hf : is_noerror (fwd_reply w req h) = true)
    (hsec : is_ipaddress (orig_host w req h) = false →
      is_noerror (w.resolveA (orig_host w req h)) = true) :
    (Event.cacheSet (mx_key "" req.qname) (rewritten_rr w req h)
        ((rewritten_rr w req h).ttl) ∈ (resolve_mx w req h).2) ∧
    (∀ c : String → Option RR,
      c (mx_key "" req.qname) = some (rewritten_rr w req h) →
      resolve_mx { w with cache := c } req h =
        (⟨0, [rewritten_rr w req h]⟩, [.cacheGet (mx_key "" req.qname)])) := by
  constructor
  · rw [resolve_mx_rewrite w req h hc hf hsec, finish_mx_eq]
    simp [rewritten_rr, orig_pref, orig_host, mx_location, fwd_reply,
      rr_from_zone]
  · intro c hcache
    exact resolve_mx_hit _ req h _ hcache

/-- C5 witness: the round trip evaluated on a concrete rewrite run and on the
cache produced by its store step. -/
theorem C5_cache_round_trip_witness :
    (Event.cacheSet (mx_key "" exReq.qname) (rewritten_rr exWus exReq exH)
        ((rewritten_rr exWus exReq exH).ttl) ∈
      (resolve_mx exWus exReq exH).2) ∧
    resolve_mx { exWus with cache := exCacheHit } exReq exH =
      (⟨0, [rewritten_rr exWus exReq exH]⟩,
       [.cacheGet (mx_key "" exReq.qname)]) :=
  ⟨(C5_cache_round_trip exWus exReq exH rfl (by decide) (by decide)).1,
   (C5_cache_round_trip exWus exReq exH rfl (by decide) (by decide)).2
     exCacheHit (by decide)⟩

/-- C6: the cache key is a deterministic function of the namespace, the
location and the query name; with the location fixed, two names share a key
exactly when their case-normalized renderings agree — so case variants of one
name share a key and names distinct under case-insensitive comparison never
collide. -/
theorem C6_cache_key (location a b : String) :
    (mx_key location a = mx_key location b ↔ label_str a = label_str b) ∧
    mx_key location a = mx_key location (pyLower a) := by
  constructor
  · exact string_append_right_inj (("mx:" ++ location) ++ ":") _ _
  · exact congrArg ((("mx:" ++ location) ++ ":") ++ ·) (pyLower_idem a).symm

/-- The upstream sends of one interception-pipeline run: at most two, each
either the primary forward over the client's transport with the fixed
timeout, or the secondary type-A send over UDP with no timeout argument. -/
theorem upstream_events_mx (w : World) (req : DNSRequest) (h : Handler) :
    ((resolve_mx w req h).2.filter is_upstream_send).length ≤ 2 ∧
    ∀ e ∈ (resolve_mx w req h).2, is_upstream_send e = true →
      e = .upstreamSend (if h.protocol = "udp" then false else true)
            (some DEFAULT_TIMEOUT) ∨
      e = .upstreamSend false none := by
  rcases hcache : w.cache (mx_key "" req.qname) with _ | rr
  · by_cases hf : is_noerror (resolve_other w req h).1 = true
    · by_cases hip : is_ipaddress
          (parse_rdata (get_a (resolve_other w req h).1).rdata).2 = true
      · rw [resolve_mx_rewrite w req h hcache hf
          (fun hip2 => absurd hip (by simp [hip2])), finish_mx_eq]
        simp only [secondary_events, hip, if_true]
        rw [resolve_other_eq]
        simp [is_upstream_send, List.filter]
      · simp only [Bool.not_eq_true] at hip
        by_cases hs : is_noerror
            (w.resolveA (parse_rdata (get_a (resolve_other w req h).1).rdata).2) = true
        · rw [resolve_mx_rewrite w req h hcache hf (fun _ => hs), finish_mx_eq]
          simp only [secondary_events, hip, Bool.false_eq_true, if_false]
          rw [resolve_other_eq]
          simp [is_upstream_send, List.filter]
        · simp only [Bool.not_eq_true] at hs
          rw [resolve_mx_secondary_error w req h hcache hf hip hs,
            resolve_other_eq]
          simp [is_upstream_send, List.filter]
    · simp only [Bool.not_eq_true] at hf
      rw [resolve_mx_fwd_error w req h hcache hf, resolve_other_eq]
      simp [is_upstream_send, List.filter]
  · rw [resolve_mx_hit w req h rr hcache]
    simp [is_upstream_send, List.filter]

/-- C9 counterexample: a concrete MX run issues the secondary type-A upstream
send with no timeout argument, where the claim requires every upstream call
to carry the fixed DEFAULT_TIMEOUT. -/
theorem C9_counterexample :
    Event.upstreamSend false none ∈ (resolve exCfg exW exReq exH).2 ∧
    (none : Option Nat) ≠ some DEFAULT_TIMEOUT := by
  decide

/-- C9 (amended): every request issues at most two upstream sends with no
retry; each one is either the primary forward, sent over the client's own
transport with the fixed DEFAULT_TIMEOUT, or the secondary type-A resolution,
sent over UDP with no timeout argument at all. -/
theorem C9_upstream_calls (cfg : Config) (w : World) (req : DNSRequest)
    (h : Handler) :
    ((resolve cfg w req h).2.filter is_upstream_send).length ≤ 2 ∧
    ∀ e ∈ (resolve cfg w req h).2, is_upstream_send e = true →
      e = .upstreamSend (if h.protocol = "udp" then false else true)
            (some DEFAULT_TIMEOUT) ∨
      e = .upstreamSend false none := by
  by_cases hmx : req.qtype = "MX"
  · by_cases hskip : cfg.skip.any (fun s => cfg.matchGlob req.qname s) = true
    · rw [resolve_dispatch_other cfg w req h
        (Or.inr (List.any_eq_true.mp hskip)), resolve_other_eq]
      simp [is_upstream_send, List.filter]
    · simp only [Bool.not_eq_true] at hskip
      have hq : ∀ s ∈ cfg.skip, cfg.matchGlob req.qname s = false := by
        intro s hs
        have hone := List.any_eq_false.mp hskip s hs
        simpa using hone
      rw [resolve_dispatch_mx cfg w req h hmx hq]
      exact upstream_events_mx w req h
  · rw [resolve_dispatch_other cfg w req h (Or.inl hmx), resolve_other_eq]
    simp [is_upstream_send, List.filter]

/-- C9 witness: the amended claim evaluated on a concrete run, its membership
hypothesis discharged at the secondary send event. -/
theorem C9_upstream_calls_witness :
    ((resolve exCfg exW exReq exH).2.filter is_upstream_send).length ≤ 2 ∧
    (Event.upstreamSend false none =
        .upstreamSend (if exH.protocol = "udp" then false else true)
          (some DEFAULT_TIMEOUT) ∨
      Event.upstreamSend false none = .upstreamSend false none) :=
  ⟨(C9_upstream_calls exCfg exW exReq exH).1,
   (C9_upstream_calls exCfg exW exReq exH).2 (Event.upstreamSend false none)
     (by decide) (by decide)⟩

end GeoInterceptResolver

namespace GeoZoneResolver

/-- C7: on every request the client's LocationCode is derived from its source
IP — the geolocated code, or the reserved default on lookup failure; a
location that is a key of the zones table is served by exactly that table,
and any other location falls back to the table registered under the reserved
default location. -/
theorem C7_zone_selection (zw : ZoneWorld) (zones : String → Option String)
    (req : DNSRequest) (h : Handler) :
    (zw.geo h.client_address.1 = none →
      location_from_client zw h.client_address = DEFAULT_LOCATION) ∧
    (∀ c, zw.geo h.client_address.1 = some c →
      location_from_client zw h.client_address = c) ∧
    (∀ f, zones (location_from_client zw h.client_address) = some f →
      resolve zw zones req h = some (zw.zoneResolve f req h)) ∧
    (zones (location_from_client zw h.client_address) = none →
      resolve zw zones req h =
        Option.map (fun f => zw.zoneResolve f req h)
          (zones DEFAULT_LOCATION)) := by
  refine ⟨?_, ?_, ?_, ?_⟩
  · intro hg
    simp [location_from_client, hg]
  · intro c hg
    simp [location_from_client, hg]
  · intro f hz
    simp [resolve, zoneresolver_from_location, hz]
  · intro hz
    simp only [resolve, zoneresolver_from_location, hz]
    cases hd : zones DEFAULT_LOCATION <;> simp [hd]

/-- C7 witness: selection evaluated on a concrete zone table for a client
that does not geolocate, one that geolocates to a registered location, and
one that geolocates to an unregistered location. -/
theorem C7_zone_selection_witness :
    location_from_client exZW exHx.client_address = DEFAULT_LOCATION ∧
    location_from_client exZW exHcn.client_address = "CN" ∧
    resolve exZW (mk_zones exFiles) exZReq exHcn =
      some (exZW.zoneResolve "oversea.ceair.com-cn" exZReq exHcn) ∧
    resolve exZW (mk_zones exFiles) exZReq exHus =
      Option.map (fun f => exZW.zoneResolve f exZReq exHus)
        (mk_zones exFiles DEFAULT_LOCATION) :=
  ⟨(C7_zone_selection exZW (mk_zones exFiles) exZReq exHx).1 (by decide),
   (C7_zone_selection exZW (mk_zones exFiles) exZReq exHcn).2.1 "CN"
     (by decide),
   (C7_zone_selection exZW (mk_zones exFiles) exZReq exHcn).2.2.1
     "oversea.ceair.com-cn" (by decide),
   (C7_zone_selection exZW (mk_zones exFiles) exZReq exHus).2.2.2 (by decide)⟩

/-- C8 counterexample: a filename with two dashes is assigned the reserved
default location by the code, where the claim's suffix-after-the-last-dash
rule assigns CN. -/
theorem C8_counterexample :
    location_from_suffix "oversea.ceair.com-backup-cn" = "DEFAULT" ∧
    spec_suffix_location "oversea.ceair.com-backup-cn" = "CN" ∧
    ("DEFAULT" : String) ≠ "CN" := by
  decide

/-- C8 (amended): the uppercased token after the dash is the LocationCode
only when the filename splits on '-' into exactly two tokens (in which case
it coincides with the suffix after the last dash); filenames with zero or
with more than one dash are assigned the reserved default location. -/
theorem C8_suffix_location (filename : String) :
    ((pySplit filename '-').length = 2 →
      location_from_suffix filename = spec_suffix_location filename) ∧
    ((pySplit filename '-').length ≠ 2 →
      location_from_suffix filename = DEFAULT_LOCATION) := by
  constructor
  · intro h2
    unfold location_from_suffix spec_suffix_location
    rw [if_pos h2, if_pos (by omega)]
  · intro h2
    unfold location_from_suffix
    rw [if_neg h2]

/-- C8 witness: the amended claim evaluated at a single-dash filename and at
a dashless filename. -/
theorem C8_suffix_location_witness :
    location_from_suffix "oversea.ceair.com-cn" =
      spec_suffix_location "oversea.ceair.com-cn" ∧
    location_from_suffix "plainfile" = DEFAULT_LOCATION :=
  ⟨(C8_suffix_location "oversea.ceair.com-cn").1 (by decide),
   (C8_suffix_location "plainfile").2 (by decide)⟩

/-- C10: the zones table is built from any zone directory, also one with no
file mapping to the reserved default location; in that state the table has no
default entry, and every request whose client LocationCode is not a key fails
with the uncaught lookup error (none) instead of returning a reply — the
missing default is only detected per request. -/
theorem C10_missing_default (files : List String) (zw : ZoneWorld)
    (req : DNSRequest) (h : Handler)
    (hnd : ∀ f ∈ files, location_from_suffix f ≠ DEFAULT_LOCATION) :
    mk_zones files DEFAULT_LOCATION = none ∧
    (mk_zones files (location_from_client zw h.client_address) = none →
      resolve zw (mk_zones files) req h = none) := by
  have hdef : mk_zones files DEFAULT_LOCATION = none :=
    mk_zones_not_mem files _ hnd
  refine ⟨hdef, ?_⟩
  intro hloc
  simp [resolve, zoneresolver_from_location, hloc, hdef]

/-- C10 witness: a directory of only suffixed files evaluated with a client
whose derived location has no table. -/
theorem C10_missing_default_witness :
    mk_zones exFilesNoDefault DEFAULT_LOCATION = none ∧
    resolve exZW (mk_zones exFilesNoDefault) exZReq exHx = none :=
  ⟨(C10_missing_default exFilesNoDefault exZW exZReq exHx (by decide)).1,
   (C10_missing_default exFilesNoDefault exZW exZReq exHx (by decide)).2
     (by decide)⟩

end GeoZoneResolver

end DnsGeo
